import Mathlib

/-!
Verification development for the sharding node lifecycle supervisor
(`client/node/node.go`): the `ShardEthereum` supervisor, its service
registry, the build phase (`NewShardInstance`), shutdown (`Close`),
the blocking `Start` wait, and the interrupt-signal escalation loop.

The Go code is shallowly embedded: each build step becomes a pure
function over an explicit supervisor state that also carries a ghost
event log, the shutdown-signal goroutine becomes a state machine over
interrupt notifications, and the `Start`/`Close` channel interplay
becomes a small-step transition system.
-/

namespace Node

/-- Concrete service types registered in the registry during the build
phase, one per Go concrete type (`p2p.Server`, `txpool.TXPool`,
`rpcclient.Service`, `beacon.Service`, `attester.Attester`,
`proposer.Proposer`). The registry keys services by concrete type. -/
inductive ServiceType where
  | P2P
  | TXPool
  | RPCClient
  | Beacon
  | Attester
  | Proposer
deriving DecidableEq, Repr

/-- Errors the registry contract can produce.
Modelled from the spec: `shared.ServiceRegistry` is not under `src/`;
the spec says registering a second instance of an already-present type
fails with a DuplicateService error, and fetching an absent type fails
with an UnregisteredService error. -/
inductive RegistryError where
  | DuplicateService (t : ServiceType)
  | UnregisteredService (t : ServiceType)
deriving DecidableEq, Repr

/-- Modelled from the spec: `shared.ServiceRegistry` (not under `src/`)
is an ordered, type-keyed container; registration order is preserved
and at most one instance per concrete type may be present. -/
structure ServiceRegistry where
  services : List ServiceType
deriving DecidableEq, Repr

/-- Modelled from the spec: `shared.NewServiceRegistry()` creates an
empty registry. -/
def NewServiceRegistry : ServiceRegistry := ⟨[]⟩

/-- Modelled from the spec: `RegisterService` appends the service keyed
by its concrete type, failing with DuplicateService if a service of
that exact type is already present (no other side effect). -/
def ServiceRegistry.RegisterService (r : ServiceRegistry) (t : ServiceType) :
    Except RegistryError ServiceRegistry :=
  if t ∈ r.services then
    .error (.DuplicateService t)
  else
    .ok ⟨r.services ++ [t]⟩

/-- Modelled from the spec: `FetchService` returns the previously
registered instance of the requested concrete type, failing with
UnregisteredService if absent. In this embedding services are opaque,
so a successful fetch returns `Unit`. -/
def ServiceRegistry.FetchService (r : ServiceRegistry) (t : ServiceType) :
    Except RegistryError Unit :=
  if t ∈ r.services then .ok () else .error (.UnregisteredService t)

/-- Ghost build-phase events, recorded in the order the corresponding
operations happen in `NewShardInstance`. -/
inductive Event where
  | openDB
  | fetch (t : ServiceType)
  | register (t : ServiceType)
deriving DecidableEq, Repr

/-- Errors surfaced by supervisor construction: failures of the
external constructors that can fail in `node.go` (`database.NewDB`,
`p2p.NewServer`, `txpool.NewTXPool`) and registry contract errors. -/
inductive NodeError where
  | dbOpenFailed
  | p2pCreateFailed
  | txpoolCreateFailed
  | registryErr (e : RegistryError)
deriving DecidableEq, Repr

/-- Ghost events of the `Close` sequence, in the order `Close` performs
them: take the lifecycle lock, `s.db.Close()`, `s.services.StopAll()`,
the shutdown log line, `close(s.stop)`, and the deferred unlock. -/
inductive CloseEvent where
  | lockAcquire
  | closeDB
  | stopAll
  | logStop
  | fireStop
  | lockRelease
deriving DecidableEq, Repr

/-- Runtime fault: Go panics when `close` is applied to an
already-closed channel, which is what `close(s.stop)` does if the stop
signal has already fired. -/
inductive Fault where
  | closeOfClosedChannel
deriving DecidableEq, Repr

/-- The `ShardEthereum` supervisor state: the service registry, whether
`s.db` has been attached (`startDB`), the state of the one-shot `stop`
channel, and flags plus ghost logs recording what `Close` has done. -/
structure ShardEthereum where
  services : ServiceRegistry
  dbStarted : Bool
  stopClosed : Bool
  dbClosed : Bool
  stopAllCalled : Bool
  trace : List Event
  closeLog : List CloseEvent
deriving DecidableEq, Repr

/-- The supervisor as first built in `NewShardInstance`: a fresh
registry, a fresh (open) `stop` channel, nothing logged yet. -/
def newShardEthereum : ShardEthereum :=
  { services := NewServiceRegistry
    dbStarted := false
    stopClosed := false
    dbClosed := false
    stopAllCalled := false
    trace := []
    closeLog := [] }

/-- Results of the external constructors called during the build: in
`node.go` only `database.NewDB`, `p2p.NewServer` and
`txpool.NewTXPool` can return an error; the RPC client, beacon client
and actor constructors cannot. -/
structure BuildEnv where
  dbOpenOk : Bool
  p2pOk : Bool
  txpoolOk : Bool
deriving DecidableEq, Repr

/-- `startDB`: open the LevelDB database via `database.NewDB` and
attach it to the instance; on failure return the error. -/
def startDB (env : BuildEnv) (s : ShardEthereum) : Except NodeError ShardEthereum :=
  if env.dbOpenOk then
    .ok { s with dbStarted := true, trace := s.trace ++ [.openDB] }
  else
    .error .dbOpenFailed

/-- `registerP2P`: construct the p2p server via `p2p.NewServer` (which
may fail) and register it. -/
def registerP2P (env : BuildEnv) (s : ShardEthereum) : Except NodeError ShardEthereum :=
  if env.p2pOk then
    match s.services.RegisterService .P2P with
    | .error e => .error (.registryErr e)
    | .ok r => .ok { s with services := r, trace := s.trace ++ [.register .P2P] }
  else
    .error .p2pCreateFailed

/-- `registerTXPool`: a no-op unless the actor flag is `"proposer"`;
otherwise fetch the p2p service, construct the txpool from it via
`txpool.NewTXPool` (which may fail), and register it. -/
def registerTXPool (env : BuildEnv) (actor : String) (s : ShardEthereum) :
    Except NodeError ShardEthereum :=
  if actor ≠ "proposer" then
    .ok s
  else
    match s.services.FetchService .P2P with
    | .error e => .error (.registryErr e)
    | .ok _ =>
      if env.txpoolOk then
        match s.services.RegisterService .TXPool with
        | .error e => .error (.registryErr e)
        | .ok r =>
          .ok { s with services := r,
                       trace := s.trace ++ [.fetch .P2P, .register .TXPool] }
      else
        .error .txpoolCreateFailed

/-- `registerRPCClientService`: construct the RPC client from the
endpoint flag (construction itself cannot fail) and register it. -/
def registerRPCClientService (s : ShardEthereum) : Except NodeError ShardEthereum :=
  match s.services.RegisterService .RPCClient with
  | .error e => .error (.registryErr e)
  | .ok r => .ok { s with services := r, trace := s.trace ++ [.register .RPCClient] }

/-- `registerBeaconService`: fetch the RPC client service, construct
the beacon client from it (construction cannot fail), register it. -/
def registerBeaconService (s : ShardEthereum) : Except NodeError ShardEthereum :=
  match s.services.FetchService .RPCClient with
  | .error e => .error (.registryErr e)
  | .ok _ =>
    match s.services.RegisterService .Beacon with
    | .error e => .error (.registryErr e)
    | .ok r =>
      .ok { s with services := r,
                   trace := s.trace ++ [.fetch .RPCClient, .register .Beacon] }

/-- `registerActorService`: fetch the beacon service first (before
inspecting the actor flag), then register an attester for
`"attester"`, a proposer for `"proposer"`, and nothing otherwise. -/
def registerActorService (actor : String) (s : ShardEthereum) :
    Except NodeError ShardEthereum :=
  match s.services.FetchService .Beacon with
  | .error e => .error (.registryErr e)
  | .ok _ =>
    if actor = "attester" then
      match s.services.RegisterService .Attester with
      | .error e => .error (.registryErr e)
      | .ok r =>
        .ok { s with services := r,
                     trace := s.trace ++ [.fetch .Beacon, .register .Attester] }
    else if actor = "proposer" then
      match s.services.RegisterService .Proposer with
      | .error e => .error (.registryErr e)
      | .ok r =>
        .ok { s with services := r,
                     trace := s.trace ++ [.fetch .Beacon, .register .Proposer] }
    else
      .ok { s with trace := s.trace ++ [.fetch .Beacon] }

/-- The build sequence of `NewShardInstance` with the intermediate
state retained at the point of failure (ghost information: the Go code
discards the partially built instance, returning `nil` and the error).
Each `match` mirrors one `if err := ...; err != nil` block. -/
def NewShardInstanceAux (env : BuildEnv) (actor : String) :
    ShardEthereum × Option NodeError :=
  match startDB env newShardEthereum with
  | .error e => (newShardEthereum, some e)
  | .ok s1 =>
  match registerP2P env s1 with
  | .error e => (s1, some e)
  | .ok s2 =>
  match registerTXPool env actor s2 with
  | .error e => (s2, some e)
  | .ok s3 =>
  match registerRPCClientService s3 with
  | .error e => (s3, some e)
  | .ok s4 =>
  match registerBeaconService s4 with
  | .error e => (s4, some e)
  | .ok s5 =>
  match registerActorService actor s5 with
  | .error e => (s5, some e)
  | .ok s6 => (s6, none)

/-- `NewShardInstance`: runs the build sequence; on any step error it
returns that error and no instance, otherwise the built supervisor. -/
def NewShardInstance (env : BuildEnv) (actor : String) :
    Except NodeError ShardEthereum :=
  match NewShardInstanceAux env actor with
  | (_, some e) => .error e
  | (s, none) => .ok s

/-- `Close`: under the lifecycle lock, close the database, stop all
services, log shutdown, then `close(s.stop)`. The final `close` is
unguarded in the source: if the stop channel is already closed it is a
close of a closed channel, which panics (the returned `Fault`); the
deferred unlock is recorded on the normal path, where the function
returns immediately after firing the signal. -/
def ShardEthereum.Close (s : ShardEthereum) : ShardEthereum × Option Fault :=
  let s1 := { s with closeLog := s.closeLog ++ [CloseEvent.lockAcquire] }
  let s2 := { s1 with dbClosed := true, closeLog := s1.closeLog ++ [CloseEvent.closeDB] }
  let s3 := { s2 with stopAllCalled := true, closeLog := s2.closeLog ++ [CloseEvent.stopAll] }
  let s4 := { s3 with closeLog := s3.closeLog ++ [CloseEvent.logStop] }
  let s5 := { s4 with closeLog := s4.closeLog ++ [CloseEvent.fireStop] }
  if s5.stopClosed then
    (s5, some .closeOfClosedChannel)
  else
    ({ s5 with stopClosed := true,
               closeLog := s5.closeLog ++ [CloseEvent.lockRelease] }, none)

/-- States of the interrupt-signal goroutine installed by `Start`:
`Running` before any notification; `ShuttingDown i` after the first
notification (which started `go s.Close()`), where `i` is the loop
counter of `for i := 10; i > 0; i--` at the head of the next
iteration; `ForcedTermination` once the loop has exhausted and the
goroutine flushes diagnostics and panics. -/
inductive HandlerState where
  | Running
  | ShuttingDown (i : Nat)
  | ForcedTermination
deriving DecidableEq, Repr

/-- One interrupt notification delivered to the signal goroutine,
returning the next state and the argument of the warning logged (the
`i-1` in `"Already shutting down, interrupt more to panic." times i-1`),
if any. In `Running` the notification starts shutdown and enters the
loop with `i = 10`; in the loop, a notification at counter `i > 1`
logs the warning with `i-1` and decrements; at `i = 1` the loop exits
without logging and the goroutine panics. -/
def handlerStep : HandlerState → HandlerState × Option Nat
  | .Running => (.ShuttingDown 10, none)
  | .ShuttingDown i =>
    if 1 < i then
      (.ShuttingDown (i - 1), some (i - 1))
    else
      (.ForcedTermination, none)
  | .ForcedTermination => (.ForcedTermination, none)

/-- Deliver `n` notifications starting from an arbitrary state. -/
def handlerIter : Nat → HandlerState → HandlerState
  | 0, s => s
  | n + 1, s => handlerIter n (handlerStep s).1

/-- The state of the signal goroutine after `n` notifications from the
initial `Running` state. -/
def handlerRun (n : Nat) : HandlerState :=
  handlerIter n .Running

/-- The warnings logged (their `times` arguments, in order) over the
first `n` notifications from the initial `Running` state. -/
def handlerWarnings : Nat → List Nat
  | 0 => []
  | n + 1 =>
    handlerWarnings n ++
      match (handlerStep (handlerRun n)).2 with
      | some w => [w]
      | none => []

/-- Control point of the task that called `Start`: before the call,
blocked on `<-stop` (everything up to the channel receive — taking the
lock, `StartAll`, unlocking, installing the signal goroutine — has
run), or returned from `Start`. -/
inductive StartPC where
  | idle
  | waitingStop
  | returned
deriving DecidableEq, Repr

/-- Control point of the task running `Close`: not yet called, then one
point per statement of the body (about to close the database, about to
`StopAll`, about to log, about to `close(s.stop)`), then done. -/
inductive ClosePC where
  | notCalled
  | atDBClose
  | atStopAll
  | atLogStop
  | atFireStop
  | done
deriving DecidableEq, Repr

/-- Global state of the two-task system: the `Start` caller, the
`Close` caller (the signal goroutine's `go s.Close()` or a direct
call), the lifecycle mutex, and whether the one-shot `stop` channel
has been closed. -/
structure SysState where
  startPC : StartPC
  closePC : ClosePC
  lockHeld : Bool
  stopClosed : Bool
deriving DecidableEq, Repr

/-- Initial system state: nothing started, lock free, `stop` open. -/
def initSys : SysState :=
  { startPC := .idle, closePC := .notCalled, lockHeld := false, stopClosed := false }

/-- Small-step semantics of the `Start`/`Close` interplay. `Start`'s
prefix (lock, log, `StartAll`, unlock, spawn the signal goroutine) is
one step ending blocked at `<-stop`; since `stop` is never sent on,
the receive can fire only once the channel is closed, which is the
`startReturn` premise. `Close` locks at entry, runs its four
statements in program order, and `close(s.stop)` is the only step that
closes the channel; the deferred unlock runs as the body ends. -/
inductive SysStep : SysState → SysState → Prop where
  | startCall (s : SysState) :
      s.startPC = .idle → s.lockHeld = false →
      SysStep s { s with startPC := .waitingStop }
  | startReturn (s : SysState) :
      s.startPC = .waitingStop → s.stopClosed = true →
      SysStep s { s with startPC := .returned }
  | closeCall (s : SysState) :
      s.closePC = .notCalled → s.lockHeld = false →
      SysStep s { s with closePC := .atDBClose, lockHeld := true }
  | closeDB (s : SysState) :
      s.closePC = .atDBClose →
      SysStep s { s with closePC := .atStopAll }
  | closeStopAll (s : SysState) :
      s.closePC = .atStopAll →
      SysStep s { s with closePC := .atLogStop }
  | closeLogStop (s : SysState) :
      s.closePC = .atLogStop →
      SysStep s { s with closePC := .atFireStop }
  | closeFireStop (s : SysState) :
      s.closePC = .atFireStop →
      SysStep s { s with closePC := .done, stopClosed := true, lockHeld := false }

/-- The states reachable from the initial state. -/
def SysReachable (s : SysState) : Prop :=
  Relation.ReflTransGen SysStep initSys s

/-! ### Lemmas about the signal-handler state machine -/

/-- Delivering notifications in two batches composes. -/
lemma handlerIter_add (m n : Nat) (s : HandlerState) :
    handlerIter (m + n) s = handlerIter n (handlerIter m s) := by
  induction m generalizing s with
  | zero => simp [handlerIter]
  | succ m ih =>
    have h : m + 1 + n = (m + n) + 1 := by omega
    rw [h, handlerIter, handlerIter, ih]

/-- `ForcedTermination` is terminal: further notifications change
nothing. -/
lemma handlerIter_forced (n : Nat) :
    handlerIter n .ForcedTermination = .ForcedTermination := by
  induction n with
  | zero => rfl
  | succ n ih => rw [handlerIter, handlerStep, ih]

/-- Fewer notifications than the loop counter leave the goroutine in
the loop, with the counter reduced accordingly. -/
lemma handlerIter_shuttingDown (k j : Nat) (h : k < j) :
    handlerIter k (.ShuttingDown j) = .ShuttingDown (j - k) := by
  induction k generalizing j with
  | zero => simp [handlerIter]
  | succ k ih =>
    rw [handlerIter, handlerStep]
    rw [if_pos (by omega)]
    rw [ih (j - 1) (by omega)]
    congr 1
    omega

/-- Exactly as many notifications as the loop counter exhaust the loop
and reach `ForcedTermination`. -/
lemma handlerIter_shuttingDown_forced (j : Nat) (h : 1 ≤ j) :
    handlerIter j (.ShuttingDown j) = .ForcedTermination := by
  obtain ⟨m, rfl⟩ : ∃ m, j = m + 1 := ⟨j - 1, by omega⟩
  clear h
  induction m with
  | zero => decide
  | succ m ih =>
    rw [handlerIter, handlerStep]
    rw [if_pos (by omega)]
    have h1 : m + 1 + 1 - 1 = m + 1 := by omega
    rw [h1, ih]

/-- With storage and networking fine and an actor flag that is neither
`"attester"` nor `"proposer"`, construction succeeds with exactly the
p2p, RPC-client and beacon services registered (the txpool step and
the actor registration are skipped; the beacon fetch still happens). -/
lemma NewShardInstance_no_actor (env : BuildEnv) (actor : String)
    (h1 : env.dbOpenOk = true) (h2 : env.p2pOk = true)
    (ha : actor ≠ "attester") (hp : actor ≠ "proposer") :
    NewShardInstance env actor = Except.ok
      { services := ⟨[.P2P, .RPCClient, .Beacon]⟩
        dbStarted := true
        stopClosed := false
        dbClosed := false
        stopAllCalled := false
        trace := [Event.openDB, Event.register .P2P, Event.register .RPCClient,
                  Event.fetch .RPCClient, Event.register .Beacon, Event.fetch .Beacon]
        closeLog := [] } := by
  obtain ⟨db, p2p, tx⟩ := env
  simp only at h1 h2
  subst h1 h2
  cases tx <;>
    simp_all [NewShardInstance, NewShardInstanceAux, startDB, registerP2P,
      registerTXPool, registerRPCClientService, registerBeaconService,
      registerActorService, ServiceRegistry.RegisterService,
      ServiceRegistry.FetchService, NewServiceRegistry, newShardEthereum]

/-! ### Claim theorems -/

/-- Claim C1, counterexample: the claim states the process reaches
`ForcedTermination` on exactly the 10th interrupt notification
received in total; in the code, after 10 notifications the signal
goroutine is still inside the wait loop (state `ShuttingDown 1`, the
loop has one iteration left) and has not force-terminated. -/
theorem claim_C1_counterexample :
    handlerRun 10 = HandlerState.ShuttingDown 1 ∧
      handlerRun 10 ≠ HandlerState.ForcedTermination := by
  decide

/-- Claim C1, amended: the first interrupt notification transitions
the handler to `ShuttingDown` (starting the asynchronous `Close` and
entering the wait loop with counter 10), and if notifications keep
arriving while `Close` has not completed, the process reaches
`ForcedTermination` exactly on the 11th notification received in total
(1 triggers shutdown, 10 more are consumed by the wait loop, the last
of which forces abnormal termination); it never force-terminates
before the 11th notification. -/
theorem claim_C1 :
    handlerRun 1 = HandlerState.ShuttingDown 10 ∧
      ∀ n : Nat, handlerRun n = HandlerState.ForcedTermination ↔ 11 ≤ n := by
  refine ⟨by decide, fun n => ⟨?_, ?_⟩⟩
  · intro h
    by_contra hlt
    have hn : n < 11 := by omega
    rcases Nat.eq_zero_or_pos n with h0 | h1
    · subst h0
      exact absurd h (by decide)
    · have hrw : handlerRun n = handlerIter (n - 1) (.ShuttingDown 10) := by
        conv_lhs => rw [handlerRun, show n = 1 + (n - 1) from by omega, handlerIter_add]
        rfl
      rw [hrw, handlerIter_shuttingDown (n - 1) 10 (by omega)] at h
      exact absurd h (by simp)
  · intro h
    obtain ⟨k, rfl⟩ : ∃ k, n = 11 + k := ⟨n - 11, by omega⟩
    rw [handlerRun, handlerIter_add]
    have h11 : handlerIter 11 HandlerState.Running = HandlerState.ForcedTermination := by
      decide
    rw [h11, handlerIter_forced]

/-- Inductive invariant of the `Start`/`Close` system: the stop signal
is closed only once `Close` has run to completion, and the `Start`
caller has returned only if the signal has fired. -/
lemma sysInv (s : SysState) (h : SysReachable s) :
    (s.stopClosed = true → s.closePC = ClosePC.done) ∧
    (s.startPC = StartPC.returned → s.stopClosed = true) := by
  induction h with
  | refl => simp [initSys]
  | tail _ step ih =>
    cases step <;> simp_all <;>
      exact fun hr => absurd (ih.2 hr) (by simp [ih.1])

/-- Claim C7: in every reachable state of the `Start`/`Close` system,
the stop signal has fired only if `Close` has run through its firing
point, and `Start` has returned only if the signal has fired — hence
`Start` does not return until `Close` has been invoked and has reached
the point of firing the signal. -/
theorem claim_C7 :
    ∀ s : SysState, SysReachable s →
      (s.stopClosed = true → s.closePC = ClosePC.done) ∧
      (s.startPC = StartPC.returned →
        s.stopClosed = true ∧ s.closePC = ClosePC.done) := by
  intro s h
  obtain ⟨h1, h2⟩ := sysInv s h
  exact ⟨h1, fun hr => ⟨h2 hr, h1 (h2 hr)⟩⟩

/-- Claim C7, witness: the state in which `Start` has returned after a
completed `Close` is reachable by an explicit interleaving, and in it
the signal has fired and `Close` is done. -/
theorem claim_C7_witness :
    SysReachable ⟨StartPC.returned, ClosePC.done, false, true⟩ ∧
      ((⟨StartPC.returned, ClosePC.done, false, true⟩ : SysState).stopClosed = true ∧
        (⟨StartPC.returned, ClosePC.done, false, true⟩ : SysState).closePC =
          ClosePC.done) := by
  have c1 : Relation.ReflTransGen SysStep initSys
      ⟨StartPC.waitingStop, ClosePC.notCalled, false, false⟩ :=
    Relation.ReflTransGen.single (SysStep.startCall initSys rfl rfl)
  have c2 := c1.tail (SysStep.closeCall _ rfl rfl)
  have c3 := c2.tail (SysStep.closeDB _ rfl)
  have c4 := c3.tail (SysStep.closeStopAll _ rfl)
  have c5 := c4.tail (SysStep.closeLogStop _ rfl)
  have c6 := c5.tail (SysStep.closeFireStop _ rfl)
  have c7 := c6.tail (SysStep.startReturn _ rfl rfl)
  have hreach : SysReachable ⟨StartPC.returned, ClosePC.done, false, true⟩ := c7
  exact ⟨hreach, (claim_C7 _ hreach).2 rfl⟩

/-- Claim C8, counterexample: the claim states that every additional
notification received while the handler is in `ShuttingDown` logs an
escalating warning; in the code the 11th notification in total is
received while the handler is still in `ShuttingDown` (counter 1), yet
it logs no warning — it exits the loop and forces termination. -/
theorem claim_C8_counterexample :
    handlerRun 10 = HandlerState.ShuttingDown 1 ∧
      (handlerStep (handlerRun 10)).2 = none ∧
      (handlerStep (handlerRun 10)).1 = HandlerState.ForcedTermination := by
  decide

/-- Claim C8, amended: every additional notification received in
`ShuttingDown` with loop counter `i ≥ 2` logs a warning whose number
`i - 1` is exactly the count of further notifications remaining before
forced exit (it decreases by one per notification, from 9 down to 1
over a full run), and decrements the counter; the final additional
notification (counter 1) logs no warning and forces termination. -/
theorem claim_C8 :
    (∀ i : Nat, 2 ≤ i →
      handlerStep (.ShuttingDown i) = (.ShuttingDown (i - 1), some (i - 1)) ∧
      handlerIter (i - 1) (.ShuttingDown (i - 1)) = HandlerState.ForcedTermination ∧
      ∀ k : Nat, k < i - 1 →
        handlerIter k (.ShuttingDown (i - 1)) ≠ HandlerState.ForcedTermination) ∧
    handlerStep (.ShuttingDown 1) = (HandlerState.ForcedTermination, none) ∧
    handlerWarnings 11 = [9, 8, 7, 6, 5, 4, 3, 2, 1] := by
  refine ⟨fun i hi => ⟨?_, ?_, fun k hk => ?_⟩, by decide, by decide⟩
  · rw [handlerStep, if_pos (by omega)]
  · exact handlerIter_shuttingDown_forced (i - 1) (by omega)
  · rw [handlerIter_shuttingDown k (i - 1) hk]
    simp

/-- Claim C8, witness for the amended theorem at `i = 10`: the second
notification in total logs the warning number 9 and leaves counter 9,
from which exactly 9 further notifications force termination. -/
theorem claim_C8_witness :
    handlerStep (.ShuttingDown 10) = (.ShuttingDown 9, some 9) ∧
      handlerIter 9 (.ShuttingDown 9) = HandlerState.ForcedTermination ∧
      handlerIter 3 (.ShuttingDown 9) ≠ HandlerState.ForcedTermination := by
  obtain ⟨h1, h2, h3⟩ := claim_C8.1 10 (by omega)
  exact ⟨h1, h2, h3 3 (by omega)⟩

/-- Claim C2, counterexample: the claim states that when `Close` runs
after the stop signal has already fired, the already-closed signal is
not closed a second time; in the code `close(s.stop)` is unguarded, so
a second `Close` call reaches the close statement again (the
`fireStop` event occurs twice) and panics on the closed channel. -/
theorem claim_C2_counterexample :
    ((newShardEthereum.Close).1.Close).2 = some Fault.closeOfClosedChannel ∧
      (((newShardEthereum.Close).1.Close).1.closeLog.count CloseEvent.fireStop) = 2 := by
  decide

/-- Claim C2, amended: `Close` unconditionally attempts to fire the
one-shot stop signal; if the signal has already fired when `Close`
runs, the close is attempted a second time and the execution panics on
the closed channel — safety against double close relies on `Close`
being called at most once, not on any guard in `Close`. -/
theorem claim_C2 :
    ∀ s : ShardEthereum,
      (s.stopClosed = true → (s.Close).2 = some Fault.closeOfClosedChannel) ∧
      (s.stopClosed = false → (s.Close).2 = none ∧ (s.Close).1.stopClosed = true) := by
  intro s
  constructor
  · intro h
    simp [ShardEthereum.Close, h]
  · intro h
    simp [ShardEthereum.Close, h]

/-- Claim C2, witness for the amended theorem: a first `Close` on the
freshly built supervisor fires the signal without fault, and a second
`Close` on the resulting state panics on the closed channel. -/
theorem claim_C2_witness :
    ((newShardEthereum.Close).2 = none ∧ (newShardEthereum.Close).1.stopClosed = true) ∧
      ((newShardEthereum.Close).1.Close).2 = some Fault.closeOfClosedChannel := by
  exact ⟨(claim_C2 newShardEthereum).2 rfl,
         (claim_C2 (newShardEthereum.Close).1).1 (by decide)⟩

/-- Claim C4: on every successful construction the build events happen
strictly in the claimed order: open storage, register p2p, then (for a
proposer) fetch p2p and register the txpool, then register the RPC
client, fetch it and register the beacon service, fetch the beacon
service and finally (for an attester or proposer) register the actor
service. -/
theorem claim_C4 :
    ∀ (env : BuildEnv) (actor : String) (s : ShardEthereum),
      NewShardInstance env actor = Except.ok s →
      s.trace =
        [Event.openDB, Event.register .P2P]
          ++ (if actor = "proposer" then [Event.fetch .P2P, Event.register .TXPool]
              else [])
          ++ [Event.register .RPCClient, Event.fetch .RPCClient,
              Event.register .Beacon, Event.fetch .Beacon]
          ++ (if actor = "attester" then [Event.register .Attester]
              else if actor = "proposer" then [Event.register .Proposer]
              else []) := by
  intro env actor s h
  obtain ⟨db, p2p, tx⟩ := env
  by_cases ha : actor = "attester"
  · subst ha
    cases db <;> cases p2p <;> cases tx <;>
      simp_all [NewShardInstance, NewShardInstanceAux, startDB, registerP2P,
        registerTXPool, registerRPCClientService, registerBeaconService,
        registerActorService, ServiceRegistry.RegisterService,
        ServiceRegistry.FetchService, NewServiceRegistry, newShardEthereum]
    all_goals (subst h; rfl)
  · by_cases hp : actor = "proposer"
    · subst hp
      cases db <;> cases p2p <;> cases tx <;>
        simp_all [NewShardInstance, NewShardInstanceAux, startDB, registerP2P,
          registerTXPool, registerRPCClientService, registerBeaconService,
          registerActorService, ServiceRegistry.RegisterService,
          ServiceRegistry.FetchService, NewServiceRegistry, newShardEthereum]
      all_goals (subst h; rfl)
    · cases db <;> cases p2p <;> cases tx <;>
        simp_all [NewShardInstance, NewShardInstanceAux, startDB, registerP2P,
          registerTXPool, registerRPCClientService, registerBeaconService,
          registerActorService, ServiceRegistry.RegisterService,
          ServiceRegistry.FetchService, NewServiceRegistry, newShardEthereum]
      all_goals (subst h; rfl)

/-- Claim C4, witness: a proposer build with every collaborator fine
succeeds and its event log is exactly the nine claimed events in
order. -/
theorem claim_C4_witness :
    NewShardInstance ⟨true, true, true⟩ "proposer" =
        Except.ok (NewShardInstanceAux ⟨true, true, true⟩ "proposer").1 ∧
      (NewShardInstanceAux ⟨true, true, true⟩ "proposer").1.trace =
        [Event.openDB, Event.register .P2P, Event.fetch .P2P, Event.register .TXPool,
         Event.register .RPCClient, Event.fetch .RPCClient, Event.register .Beacon,
         Event.fetch .Beacon, Event.register .Proposer] := by
  refine ⟨rfl, ?_⟩
  have h := claim_C4 ⟨true, true, true⟩ "proposer" _ rfl
  exact h.trans (by decide)

/-- Claim C5: on every successful construction, a txpool service is
registered iff the actor flag is `"proposer"`; an actor service is
registered iff the flag is `"attester"` or `"proposer"`; and for any
other flag value (including `"none"` and unrecognized strings)
construction still succeeds, with no txpool and no actor
registered. -/
theorem claim_C5 :
    ∀ (env : BuildEnv) (actor : String),
      (∀ s : ShardEthereum, NewShardInstance env actor = Except.ok s →
        (ServiceType.TXPool ∈ s.services.services ↔ actor = "proposer") ∧
        (ServiceType.Attester ∈ s.services.services ↔ actor = "attester") ∧
        (ServiceType.Proposer ∈ s.services.services ↔ actor = "proposer") ∧
        ((ServiceType.Attester ∈ s.services.services ∨
            ServiceType.Proposer ∈ s.services.services) ↔
          (actor = "attester" ∨ actor = "proposer"))) ∧
      (env.dbOpenOk = true → env.p2pOk = true →
        actor ≠ "attester" → actor ≠ "proposer" →
        ∃ s : ShardEthereum, NewShardInstance env actor = Except.ok s ∧
          ServiceType.TXPool ∉ s.services.services ∧
          ServiceType.Attester ∉ s.services.services ∧
          ServiceType.Proposer ∉ s.services.services) := by
  intro env actor
  constructor
  · intro s h
    obtain ⟨db, p2p, tx⟩ := env
    by_cases ha : actor = "attester"
    · subst ha
      cases db <;> cases p2p <;> cases tx <;>
        simp_all [NewShardInstance, NewShardInstanceAux, startDB, registerP2P,
          registerTXPool, registerRPCClientService, registerBeaconService,
          registerActorService, ServiceRegistry.RegisterService,
          ServiceRegistry.FetchService, NewServiceRegistry, newShardEthereum]
      all_goals (subst h; decide)
    · by_cases hp : actor = "proposer"
      · subst hp
        cases db <;> cases p2p <;> cases tx <;>
          simp_all [NewShardInstance, NewShardInstanceAux, startDB, registerP2P,
            registerTXPool, registerRPCClientService, registerBeaconService,
            registerActorService, ServiceRegistry.RegisterService,
            ServiceRegistry.FetchService, NewServiceRegistry, newShardEthereum]
        all_goals (subst h; decide)
      · cases db <;> cases p2p <;> cases tx <;>
          simp_all [NewShardInstance, NewShardInstanceAux, startDB, registerP2P,
            registerTXPool, registerRPCClientService, registerBeaconService,
            registerActorService, ServiceRegistry.RegisterService,
            ServiceRegistry.FetchService, NewServiceRegistry, newShardEthereum]
        all_goals (subst h; simp [ha, hp])
  · intro h1 h2 ha hp
    exact ⟨_, NewShardInstance_no_actor env actor h1 h2 ha hp,
      by decide, by decide, by decide⟩

/-- Claim C5, witness: with all collaborators fine, a `"proposer"`
build registers the txpool and the proposer actor, and a `"validator"`
(unrecognized) build succeeds with neither. -/
theorem claim_C5_witness :
    (ServiceType.TXPool ∈
        (NewShardInstanceAux ⟨true, true, true⟩ "proposer").1.services.services ↔
      ("proposer" : String) = "proposer") ∧
    (∃ s : ShardEthereum, NewShardInstance ⟨true, true, true⟩ "validator" = Except.ok s ∧
      ServiceType.TXPool ∉ s.services.services ∧
      ServiceType.Attester ∉ s.services.services ∧
      ServiceType.Proposer ∉ s.services.services) := by
  refine ⟨((claim_C5 ⟨true, true, true⟩ "proposer").1 _ rfl).1, ?_⟩
  exact (claim_C5 ⟨true, true, true⟩ "validator").2 rfl rfl (by decide) (by decide)

/-- Claim C6: every execution of `Close` from a state in which the
stop signal has not yet fired performs, between taking and releasing
the lifecycle lock, exactly the sequence close-database, `StopAll`,
shutdown log, fire the stop signal (as witnessed by the ghost close
log); in particular the storage handle is closed before any service
`Stop` runs and the signal fires only after `StopAll`. -/
theorem claim_C6 :
    ∀ s : ShardEthereum, s.stopClosed = false → s.closeLog = [] →
      (s.Close).2 = none ∧
      (s.Close).1.closeLog =
        [CloseEvent.lockAcquire, CloseEvent.closeDB, CloseEvent.stopAll,
         CloseEvent.logStop, CloseEvent.fireStop, CloseEvent.lockRelease] ∧
      (s.Close).1.dbClosed = true ∧
      (s.Close).1.stopAllCalled = true ∧
      (s.Close).1.stopClosed = true := by
  intro s h1 h2
  simp [ShardEthereum.Close, h1, h2]

/-- Claim C6, witness: `Close` on the freshly built supervisor runs
the full logged sequence. -/
theorem claim_C6_witness :
    (newShardEthereum.Close).2 = none ∧
      (newShardEthereum.Close).1.closeLog =
        [CloseEvent.lockAcquire, CloseEvent.closeDB, CloseEvent.stopAll,
         CloseEvent.logStop, CloseEvent.fireStop, CloseEvent.lockRelease] ∧
      (newShardEthereum.Close).1.dbClosed = true ∧
      (newShardEthereum.Close).1.stopAllCalled = true ∧
      (newShardEthereum.Close).1.stopClosed = true := by
  exact claim_C6 newShardEthereum rfl rfl

/-- Claim C9: if opening the persistent storage fails, construction
returns the storage error and no instance, and at the point of failure
nothing has been registered and no build event has happened. -/
theorem claim_C9 :
    ∀ (env : BuildEnv) (actor : String), env.dbOpenOk = false →
      NewShardInstance env actor = Except.error NodeError.dbOpenFailed ∧
      (NewShardInstanceAux env actor).1.services.services = [] ∧
      (NewShardInstanceAux env actor).1.trace = [] := by
  intro env actor h
  simp [NewShardInstance, NewShardInstanceAux, startDB, h, newShardEthereum,
        NewServiceRegistry]

/-- Claim C9, witness: with storage open failing and every other
collaborator fine, construction fails with the storage error and the
registry is untouched. -/
theorem claim_C9_witness :
    NewShardInstance ⟨false, true, true⟩ "attester" =
        Except.error NodeError.dbOpenFailed ∧
      (NewShardInstanceAux ⟨false, true, true⟩ "attester").1.services.services = [] ∧
      (NewShardInstanceAux ⟨false, true, true⟩ "attester").1.trace = [] := by
  exact claim_C9 ⟨false, true, true⟩ "attester" rfl

/-- Claim C3: if any build step fails, `NewShardInstance` returns that
step's error and, the result being the `error` branch of `Except`, no
supervisor instance at all. The first conjunct is the general
propagation law covering every step — in particular the RPC-client and
beacon registration steps, which after a successful prefix can only
fail through the registry contract; the remaining conjuncts name the
three steps whose external constructors can fail (`database.NewDB`,
`p2p.NewServer`, `txpool.NewTXPool`). -/
theorem claim_C3 :
    (∀ (env : BuildEnv) (actor : String) (s : ShardEthereum) (e : NodeError),
      NewShardInstanceAux env actor = (s, some e) →
      NewShardInstance env actor = Except.error e) ∧
    (∀ (env : BuildEnv) (actor : String) (e : NodeError),
      startDB env newShardEthereum = Except.error e →
      NewShardInstance env actor = Except.error e) ∧
    (∀ (env : BuildEnv) (actor : String) (s1 : ShardEthereum) (e : NodeError),
      startDB env newShardEthereum = Except.ok s1 →
      registerP2P env s1 = Except.error e →
      NewShardInstance env actor = Except.error e) ∧
    (∀ (env : BuildEnv) (actor : String) (s1 s2 : ShardEthereum) (e : NodeError),
      startDB env newShardEthereum = Except.ok s1 →
      registerP2P env s1 = Except.ok s2 →
      registerTXPool env actor s2 = Except.error e →
      NewShardInstance env actor = Except.error e) := by
  refine ⟨?_, ?_, ?_, ?_⟩
  · intro env actor s e h
    simp [NewShardInstance, h]
  · intro env actor e h
    simp [NewShardInstance, NewShardInstanceAux, h]
  · intro env actor s1 e h1 h2
    simp [NewShardInstance, NewShardInstanceAux, h1, h2]
  · intro env actor s1 s2 e h1 h2 h3
    simp [NewShardInstance, NewShardInstanceAux, h1, h2, h3]

/-- Claim C3, witness: concrete failures of the storage, networking
and (for a proposer) transaction-relay steps each abort construction
with exactly that step's error. -/
theorem claim_C3_witness :
    NewShardInstance ⟨false, true, true⟩ "none" =
        Except.error NodeError.dbOpenFailed ∧
      NewShardInstance ⟨true, false, true⟩ "none" =
        Except.error NodeError.p2pCreateFailed ∧
      NewShardInstance ⟨true, true, false⟩ "proposer" =
        Except.error NodeError.txpoolCreateFailed := by
  refine ⟨claim_C3.2.1 ⟨false, true, true⟩ "none" NodeError.dbOpenFailed rfl, ?_, ?_⟩
  · exact claim_C3.2.2.1 ⟨true, false, true⟩ "none" _ NodeError.p2pCreateFailed rfl rfl
  · exact claim_C3.2.2.2 ⟨true, true, false⟩ "proposer" _ _
      NodeError.txpoolCreateFailed rfl rfl rfl

/-- Claim C10: `registerActorService` fetches the beacon service
before inspecting the actor flag, so on a registry without the beacon
service it fails with the lookup error for every actor value,
including `"none"` and unrecognized strings. -/
theorem claim_C10 :
    ∀ (actor : String) (s : ShardEthereum),
      ServiceType.Beacon ∉ s.services.services →
      registerActorService actor s =
        Except.error (NodeError.registryErr
          (RegistryError.UnregisteredService ServiceType.Beacon)) := by
  intro actor s h
  simp [registerActorService, ServiceRegistry.FetchService, h]

/-- Claim C10, witness: on the freshly built supervisor (empty
registry) the actor step fails with the beacon lookup error even for
actor `"none"`. -/
theorem claim_C10_witness :
    registerActorService "none" newShardEthereum =
      Except.error (NodeError.registryErr
        (RegistryError.UnregisteredService ServiceType.Beacon)) := by
  exact claim_C10 "none" newShardEthereum (by decide)

end Node
